import Mathlib

set_option autoImplicit false
set_option maxHeartbeats 1000000

namespace Hivemind

/-!
Shallow embedding of the Hivemind gateway core (`lib/gateway/retry.py`,
`lib/gateway/cache.py`, `lib/gateway/backends/cli_backend.py`).

Python strings are modelled as Lean `String`s; Python's `in` substring
test, `.lower()` and `.strip()` are embedded as executable functions on
code-point lists.  Python floats are modelled as rationals (`ℚ`): every
claim below is about the algebraic structure of the computations, not
about rounding.  Wall-clock reads (`time.time()`) are modelled by an
explicit time parameter held fixed for the duration of a call.
-/

/-- Embedding of Python's substring prefix test on code-point lists. -/
def chStarts : List Char → List Char → Bool
  | [], _ => true
  | _ :: _, [] => false
  | p :: ps, c :: cs => p == c && chStarts ps cs

/-- Embedding of Python's `pat in s` substring test on code-point lists. -/
def chContains (pat : List Char) : List Char → Bool
  | [] => chStarts pat []
  | c :: cs => chStarts pat (c :: cs) || chContains pat cs

/-- Python `pat in s` on strings. -/
def strContains (s pat : String) : Bool :=
  chContains pat.data s.data

/-- ASCII whitespace recognised by Python's `str.strip()`. -/
def pyWs (c : Char) : Bool :=
  c == ' ' || c == '\t' || c == '\n' || c == '\r' || c == '\x0b' || c == '\x0c'

/-- Python `str.strip()` on code-point lists. -/
def stripList (l : List Char) : List Char :=
  ((l.dropWhile pyWs).reverse.dropWhile pyWs).reverse

/-- Python `str.strip()`. -/
def pyStrip (s : String) : String :=
  ⟨stripList s.data⟩

/-- ASCII case folding of one code point (the fragment of Python's
`str.lower()` exercised by the gateway's pattern lists, which are all
ASCII). -/
def pyLowerChar (c : Char) : Char :=
  if 'A' ≤ c ∧ c ≤ 'Z' then Char.ofNat (c.toNat + 32) else c

/-- Python `str.lower()` (ASCII fragment). -/
def pyLower (s : String) : String :=
  ⟨s.data.map pyLowerChar⟩

/-! ## `retry.py`: error classification -/

/-- From `retry.py` — `class ErrorType(Enum)`: classification of errors for
retry decisions. -/
inductive ErrorType where
  | RETRYABLE_TRANSIENT
  | RETRYABLE_RATE_LIMIT
  | NON_RETRYABLE_AUTH
  | NON_RETRYABLE_CLIENT
  | NON_RETRYABLE_PERMANENT
  deriving DecidableEq, Repr

/-- From `retry.py` — `rate_limit_patterns` in `classify_error`. -/
def rate_limit_patterns : List String :=
  ["rate limit", "too many requests", "quota exceeded", "throttl"]

/-- From `retry.py` — `auth_patterns` in `classify_error`. -/
def auth_patterns : List String :=
  ["unauthorized", "authentication", "invalid api key", "api key not found",
   "forbidden", "access denied"]

/-- From `retry.py` — `transient_patterns` in `classify_error`. -/
def transient_patterns : List String :=
  ["timeout", "timed out", "connection", "network", "temporary",
   "unavailable", "overloaded", "server error", "internal error",
   "bad gateway", "service unavailable"]

/-- From `retry.py` — `client_patterns` in `classify_error`. -/
def client_patterns : List String :=
  ["invalid", "malformed", "bad request", "not found", "unsupported"]

/-- Python `any(p in error_lower for p in patterns)`. -/
def hasAny (el : String) (pats : List String) : Bool :=
  pats.any (fun p => strContains el p)

/-- The text-heuristic tail of `classify_error` (`retry.py` lines 113-165):
the straight-line code reached when no status-code branch returned. -/
def classifyByText (el : String) : ErrorType :=
  if hasAny el rate_limit_patterns then .RETRYABLE_RATE_LIMIT
  else if hasAny el auth_patterns then .NON_RETRYABLE_AUTH
  else if hasAny el transient_patterns then .RETRYABLE_TRANSIENT
  else if hasAny el client_patterns then .NON_RETRYABLE_CLIENT
  else .RETRYABLE_TRANSIENT

/-- From `retry.py` — `classify_error(error, status_code)`.  Python's
`if status_code:` is falsy for `None` and for `0`, so a zero code falls
through to the text heuristics, as does a code in 100..399. -/
def classify_error (error : String) (status_code : Option Int) : ErrorType :=
  let el := pyLower error
  match status_code with
  | some c =>
    if c ≠ 0 then
      if c = 429 then .RETRYABLE_RATE_LIMIT
      else if c = 401 ∨ c = 403 then .NON_RETRYABLE_AUTH
      else if 400 ≤ c ∧ c < 500 then .NON_RETRYABLE_CLIENT
      else if 500 ≤ c then .RETRYABLE_TRANSIENT
      else classifyByText el
    else classifyByText el
  | none => classifyByText el

/-- From `retry.py` — `should_retry(error_type)`. -/
def should_retry (t : ErrorType) : Bool :=
  t == .RETRYABLE_TRANSIENT || t == .RETRYABLE_RATE_LIMIT

/-- From `retry.py` — `should_fallback(error_type)`. -/
def should_fallback (t : ErrorType) : Bool :=
  t != .NON_RETRYABLE_AUTH

/-- From `retry.py` — `detect_auth_failure(error, status_code)`. -/
def detect_auth_failure (error : String) (status_code : Option Int) : Bool :=
  classify_error error status_code == .NON_RETRYABLE_AUTH


/-! ## Backend result and request

`backends/base_backend.py` and `models.py` are not part of the sources
at hand; per §3 of the specification they are plain records constructed
by `BackendResult.ok` / `BackendResult.fail` and never mutated after
return. -/

/-- Modelled from the spec: `BackendResult` (`backends/base_backend.py`,
absent from the sources) — success flag, response text, error message,
latency, token usage estimate, free-form metadata (modelled by its used
keys: exit code, auth-required flag, auth URL, auth-terminal flag, token
split), optional thinking trace and raw output. -/
structure BackendResult where
  success : Bool
  response : String
  error : Option String
  latency_ms : ℚ
  tokens_used : Option Nat
  thinking : Option String
  raw_output : Option String
  meta_exit_code : Option Int
  meta_auth_required : Bool
  meta_auth_url : Option String
  meta_auth_terminal_opened : Bool
  meta_input_tokens : Option Nat
  meta_output_tokens : Option Nat
  meta_tokens_estimated : Bool
  deriving DecidableEq, Repr

/-- Modelled from the spec: `BackendResult.fail(error)` — a failure
result carrying only the error message (other fields defaulted). -/
def BackendResult.fail (e : String) : BackendResult :=
  ⟨false, "", some e, 0, none, none, none, none, false, none, false, none, none, false⟩

/-- Modelled from the spec: `BackendResult.ok(response)` — a success
result carrying the response text (other fields defaulted). -/
def BackendResult.ok (r : String) : BackendResult :=
  ⟨true, r, none, 0, none, none, none, none, false, none, false, none, none, false⟩

/-- Modelled from the spec: the fragment of `GatewayRequest`
(`models.py`, absent from the sources) read and written by the retry
executor — the target provider and the mutable per-request timeout. -/
structure GatewayRequest where
  provider : String
  timeout_s : ℚ
  deriving DecidableEq, Repr

/-! ## `retry.py`: configuration -/

/-- From `retry.py` — `GEMINI_RATE_LIMIT_MIN_TIMEOUT_S = 600.0`. -/
def GEMINI_RATE_LIMIT_MIN_TIMEOUT_S : ℚ := 600

/-- From `retry.py` — `DEFAULT_FALLBACK_CHAINS`. -/
def DEFAULT_FALLBACK_CHAINS : List (String × List String) :=
  [("claude", ["deepseek", "gemini"]),
   ("gemini", ["claude", "deepseek"]),
   ("deepseek", ["claude", "qwen"]),
   ("codex", ["opencode", "claude"]),
   ("opencode", ["codex", "claude"]),
   ("kimi", ["qwen", "deepseek"]),
   ("qwen", ["kimi", "deepseek"]),
   ("iflow", ["claude", "deepseek"])]

/-- From `retry.py` — `DEFAULT_PROVIDER_GROUPS`. -/
def DEFAULT_PROVIDER_GROUPS : List (String × List String) :=
  [("all", ["claude", "gemini", "deepseek", "codex"]),
   ("fast", ["claude", "deepseek"]),
   ("reasoning", ["deepseek", "claude"]),
   ("coding", ["codex", "claude", "opencode"]),
   ("chinese", ["deepseek", "kimi", "qwen"])]

/-- Python `dict.get(key, default)` on an association list. -/
def dictGet {α : Type} : List (String × α) → String → α → α
  | [], _, d => d
  | (k, v) :: t, key, d => if k == key then v else dictGet t key d

/-- From `retry.py` — `@dataclass RetryConfig`. -/
structure RetryConfig where
  enabled : Bool
  max_retries : Nat
  base_delay_s : ℚ
  max_delay_s : ℚ
  exponential_base : ℚ
  jitter : Bool
  fallback_enabled : Bool
  fallback_chains : List (String × List String)
  provider_groups : List (String × List String)
  deriving DecidableEq, Repr

/-- The `RetryConfig` dataclass field defaults. -/
def defaultRetryConfig : RetryConfig :=
  ⟨true, 3, 1, 30, 2, true, true, DEFAULT_FALLBACK_CHAINS, DEFAULT_PROVIDER_GROUPS⟩

/-- From `retry.py` — `RetryConfig.get_delay(attempt)` before the jitter
multiplication: `base * exponential_base ** attempt`, capped at
`max_delay_s`. -/
def RetryConfig.raw_delay (cfg : RetryConfig) (attempt : Nat) : ℚ :=
  min (cfg.base_delay_s * cfg.exponential_base ^ attempt) cfg.max_delay_s

/-- From `retry.py` — `RetryConfig.get_delay(attempt)`.  The draw of Python's
`random.random()` is the explicit parameter `r ∈ [0, 1)`, so the jitter
factor is `0.5 + r`. -/
def RetryConfig.get_delay (cfg : RetryConfig) (attempt : Nat) (r : ℚ) : ℚ :=
  if cfg.jitter then cfg.raw_delay attempt * (1/2 + r) else cfg.raw_delay attempt

/-- From `retry.py` — `RetryConfig.get_fallbacks(provider)`. -/
def RetryConfig.get_fallbacks (cfg : RetryConfig) (provider : String) : List String :=
  dictGet cfg.fallback_chains provider []

/-! ## `retry.py`: retry state and executor -/

/-- One element of `RetryState.errors`: the dict appended by
`RetryState.record_error` (provider, error text, classified type,
attempt number, timestamp). -/
structure ErrorEvent where
  provider : String
  error : String
  error_type : ErrorType
  attempt : Nat
  timestamp : ℚ
  deriving DecidableEq, Repr

/-- From `retry.py` — `@dataclass RetryState`. -/
structure RetryState where
  original_provider : String
  current_provider : String
  attempt : Nat
  total_attempts : Nat
  fallback_index : Int
  errors : List ErrorEvent
  start_time : ℚ
  deriving DecidableEq, Repr

/-- From `retry.py` — `RetryState.record_error(provider, error, error_type)`;
the timestamp is the current wall clock. -/
def RetryState.record_error (st : RetryState) (provider error : String)
    (error_type : ErrorType) (now : ℚ) : RetryState :=
  { st with errors := st.errors ++ [⟨provider, error, error_type, st.attempt, now⟩] }

/-- The executor's environment: the backend `execute` function as an
oracle from (provider, number of calls already made) to a result, the
set of providers that have a registered backend, the
`extract_status_code` regex helper as an oracle (the claims hold for
every status extractor), and the wall clock. -/
structure ExecEnv where
  exec : String → Nat → BackendResult
  backends : List String
  statusOf : String → Option Int
  now : ℚ

/-- From `retry.py` — `RetryExecutor._execute_once(request)`: dispatch to the
backend if one is registered, else a failure result.  A backend raising
an exception is modelled by the oracle returning the corresponding
`BackendResult.fail`. -/
def executeOnce (env : ExecEnv) (req : GatewayRequest) (idx : Nat) : BackendResult :=
  if env.backends.contains req.provider then env.exec req.provider idx
  else BackendResult.fail ("No backend available for provider: " ++ req.provider)

/-- From `retry.py` — `RetryExecutor._ensure_min_timeout(request, min_timeout_s)`. -/
def ensureMinTimeout (req : GatewayRequest) (min_timeout_s : ℚ) : GatewayRequest :=
  if req.timeout_s < min_timeout_s then { req with timeout_s := min_timeout_s } else req

/-- From `retry.py` — `RetryExecutor._execute_with_retries`: the
`while state.attempt <= max_retries` loop, as a recursion on the fuel
`max_retries + 1 - attempt` (the exact number of remaining loop
iterations, so the translation is step-for-step).  `last` is Python's
`last_result`; the `await asyncio.sleep(delay)` is a no-op in the
embedding, but the rate-limit branch that raises the Gemini request
timeout is kept. -/
def execRetriesAux (cfg : RetryConfig) (env : ExecEnv) :
    Nat → GatewayRequest → RetryState → Option BackendResult →
    BackendResult × GatewayRequest × RetryState
  | 0, req, st, last => (last.getD (BackendResult.fail "No result from execution"), req, st)
  | fuel + 1, req, st, _last =>
    let idx := st.total_attempts
    let st := { st with total_attempts := st.total_attempts + 1 }
    let result := executeOnce env req idx
    if result.success then (result, req, st)
    else
      let e := result.error.getD ""
      let error_type := classify_error e (env.statusOf e)
      let st := st.record_error st.current_provider e error_type env.now
      if error_type = .NON_RETRYABLE_AUTH ∨ error_type = .NON_RETRYABLE_CLIENT ∨
          error_type = .NON_RETRYABLE_PERMANENT then
        (result, req, st)
      else
        let st := { st with attempt := st.attempt + 1 }
        if st.attempt > cfg.max_retries then (result, req, st)
        else
          let req :=
            if error_type = .RETRYABLE_RATE_LIMIT ∧ req.provider = "gemini" then
              ensureMinTimeout req GEMINI_RATE_LIMIT_MIN_TIMEOUT_S
            else req
          execRetriesAux cfg env fuel req st (some result)

/-- From `retry.py` — the `while True` fallback loop of
`RetryExecutor.execute_with_retry`, as a recursion over the suffix of
the filtered fallback chain not yet tried (`fallbacks[fallback_index+1:]`). -/
def execFallbackLoop (cfg : RetryConfig) (env : ExecEnv) :
    List String → GatewayRequest → RetryState →
    BackendResult × GatewayRequest × RetryState
  | remaining, req, st =>
    let out := execRetriesAux cfg env (cfg.max_retries + 1 - st.attempt) req st none
    let result := out.1
    let req' := out.2.1
    let st' := out.2.2
    if result.success then (result, req', st')
    else if !cfg.fallback_enabled then (result, req', st')
    else
      let st'' := { st' with fallback_index := st'.fallback_index + 1 }
      match remaining with
      | [] => (result, req', st'')
      | p :: rest =>
        execFallbackLoop cfg env rest { req' with provider := p }
          { st'' with current_provider := p, attempt := 0 }

/-- From `retry.py` — `RetryExecutor.execute_with_retry(request)`, returning
`(result, request, retry_state)` (the request is returned because the
loop mutates its provider and timeout). -/
def execute_with_retry (cfg : RetryConfig) (env : ExecEnv)
    (available_providers : List String) (req : GatewayRequest) :
    BackendResult × GatewayRequest × RetryState :=
  let st : RetryState := ⟨req.provider, req.provider, 0, 0, -1, [], env.now⟩
  if !cfg.enabled then
    let result := executeOnce env req 0
    (result, req, { st with total_attempts := 1 })
  else
    let fallbacks := (cfg.get_fallbacks req.provider).filter
      (fun p => available_providers.contains p)
    execFallbackLoop cfg env fallbacks req st

/-! ## `retry.py`: provider reliability -/

/-- From `retry.py` — `@dataclass ProviderReliabilityScore`. -/
structure ProviderReliabilityScore where
  provider : String
  success_count : Nat
  failure_count : Nat
  timeout_count : Nat
  auth_failure_count : Nat
  last_success : Option ℚ
  last_failure : Option ℚ
  last_auth_failure : Option ℚ
  deriving DecidableEq, Repr

/-- A freshly created `ProviderReliabilityScore(provider=provider)`
with the dataclass field defaults. -/
def freshScore (provider : String) : ProviderReliabilityScore :=
  ⟨provider, 0, 0, 0, 0, none, none, none⟩

/-- From `retry.py` — `ProviderReliabilityScore.total_requests`. -/
def ProviderReliabilityScore.total_requests (s : ProviderReliabilityScore) : Nat :=
  s.success_count + s.failure_count + s.timeout_count

/-- From `retry.py` — `ProviderReliabilityScore.reliability_score`. -/
def ProviderReliabilityScore.reliability_score (s : ProviderReliabilityScore) : ℚ :=
  if s.total_requests = 0 then 1
  else
    let success_rate : ℚ := (s.success_count : ℚ) / (s.total_requests : ℚ)
    let auth_penalty : ℚ := min ((s.auth_failure_count : ℚ) * (1/10)) (3/10)
    let score := success_rate * (7/10) + (1 - auth_penalty) * (3/10)
    max 0 (min 1 score)

/-- From `retry.py` — `ProviderReliabilityScore.is_healthy`. -/
def ProviderReliabilityScore.is_healthy (s : ProviderReliabilityScore) : Bool :=
  if 3 ≤ s.auth_failure_count then false
  else decide ((3/10 : ℚ) ≤ s.reliability_score)

/-- From `retry.py` — `ProviderReliabilityScore.needs_reauth`. -/
def ProviderReliabilityScore.needs_reauth (s : ProviderReliabilityScore) : Bool :=
  decide (3 ≤ s.auth_failure_count)

/-- From `retry.py` — `ProviderReliabilityScore.record_success()`. -/
def ProviderReliabilityScore.record_success (s : ProviderReliabilityScore)
    (now : ℚ) : ProviderReliabilityScore :=
  { s with success_count := s.success_count + 1, last_success := some now }

/-- From `retry.py` — `ProviderReliabilityScore.record_failure(is_auth_failure, is_timeout)`. -/
def ProviderReliabilityScore.record_failure (s : ProviderReliabilityScore)
    (is_auth_failure is_timeout : Bool) (now : ℚ) : ProviderReliabilityScore :=
  let s :=
    if is_timeout then { s with timeout_count := s.timeout_count + 1 }
    else { s with failure_count := s.failure_count + 1 }
  let s :=
    if is_auth_failure then
      { s with auth_failure_count := s.auth_failure_count + 1,
               last_auth_failure := some now }
    else s
  { s with last_failure := some now }

/-- From `retry.py` — `ProviderReliabilityScore.reset_auth_failures()`. -/
def ProviderReliabilityScore.reset_auth_failures
    (s : ProviderReliabilityScore) : ProviderReliabilityScore :=
  { s with auth_failure_count := 0, last_auth_failure := none }

/-- Applies `n` consecutive `record_failure(is_auth_failure=True)` calls on a
fresh score for `p` (what `ReliabilityTracker.record_failure` performs
for an auth-classified error). -/
def recordAuthFailures (p : String) (now : ℚ) : Nat → ProviderReliabilityScore
  | 0 => freshScore p
  | n + 1 => (recordAuthFailures p now n).record_failure true false now

/-- From `retry.py` — `class ReliabilityTracker`: its `_scores` dict.  The
`asyncio.Lock` only serialises mutation and has no pure content. -/
structure ReliabilityTracker where
  scores : List (String × ProviderReliabilityScore)

/-- From `retry.py` — `ReliabilityTracker.get_score(provider)`: the stored
score, or a fresh one created lazily. -/
def ReliabilityTracker.get_score (tr : ReliabilityTracker)
    (provider : String) : ProviderReliabilityScore :=
  dictGet tr.scores provider (freshScore provider)

/-- From `retry.py` — `ReliabilityTracker.get_healthy_providers(providers)`. -/
def ReliabilityTracker.get_healthy_providers (tr : ReliabilityTracker)
    (providers : List String) : List String :=
  providers.filter (fun p => (tr.get_score p).is_healthy)

/-- The first element attaining the maximal key, which is what Python's
stable `sort(key=..., reverse=True)` followed by `[0]` selects in
`get_best_fallback`. -/
def bestByScore (f : String → ℚ) : String → List String → String
  | b, [] => b
  | b, c :: cs => bestByScore f (if f c > f b then c else b) cs

/-- From `retry.py` — `ReliabilityTracker.get_best_fallback(primary, fallback_chain)`. -/
def ReliabilityTracker.get_best_fallback (tr : ReliabilityTracker)
    (primary : String) (fallback_chain : List String) : Option String :=
  let candidates := fallback_chain.filter
    (fun p => p != primary && (tr.get_score p).is_healthy)
  match candidates with
  | [] => none
  | c :: cs => some (bestByScore (fun p => (tr.get_score p).reliability_score) c cs)

/-! ## `cache.py`: smart cache

`sha256` is treated as an opaque parameter `hash : String → String`
(its value never matters for the claims: the key is any deterministic
function of provider, model and normalised message).  The SQLite table
behind `StateStore` is modelled as an association list keyed by the
`cache_key` primary key, following the SQL statements visible in
`cache.py`; `INSERT OR REPLACE` is delete-then-insert, per SQLite. -/

/-- From `cache.py` — `@dataclass CacheConfig`. -/
structure CacheConfig where
  enabled : Bool
  default_ttl_s : ℚ
  max_entries : Nat
  provider_ttl_s : List (String × ℚ)
  min_response_length : Nat
  no_cache_patterns : List String
  deriving DecidableEq, Repr

/-- The `CacheConfig.provider_ttl_s` dataclass default. -/
def defaultProviderTtl : List (String × ℚ) :=
  [("claude", 3600), ("gemini", 3600), ("deepseek", 1800),
   ("codex", 1800), ("opencode", 1800)]

/-- The `CacheConfig.no_cache_patterns` dataclass default. -/
def defaultNoCachePatterns : List String :=
  ["current time", "current date", "today", "now", "latest",
   "recent", "weather", "stock price", "random"]

/-- The `CacheConfig` dataclass field defaults. -/
def defaultCacheConfig : CacheConfig :=
  ⟨true, 3600, 10000, defaultProviderTtl, 10, defaultNoCachePatterns⟩

/-- From `cache.py` — `CacheConfig.get_ttl(provider)`. -/
def CacheConfig.get_ttl (cfg : CacheConfig) (provider : String) : ℚ :=
  dictGet cfg.provider_ttl_s provider cfg.default_ttl_s

/-- From `cache.py` — `CacheConfig.should_cache_message(message)`. -/
def CacheConfig.should_cache_message (cfg : CacheConfig) (message : String) : Bool :=
  !(cfg.no_cache_patterns.any (fun p => strContains (pyLower message) p))

/-- From `cache.py` — `@dataclass CacheEntry`.  The `metadata` dict is
modelled by its serialised form. -/
structure CacheEntry where
  cache_key : String
  provider : String
  message_hash : String
  response : String
  tokens_used : Option Nat
  created_at : ℚ
  expires_at : ℚ
  hit_count : Nat
  last_hit_at : Option ℚ
  metadata : Option String
  deriving DecidableEq, Repr

/-- From `cache.py` — `CacheEntry.is_expired()` at wall-clock `now`. -/
def CacheEntry.is_expired (e : CacheEntry) (now : ℚ) : Bool :=
  decide (now > e.expires_at)

/-- From `cache.py` — `generate_cache_key(provider, message, model)`.
Python's `if model:` is falsy for `None` and for the empty string. -/
def generate_cache_key (hash : String → String) (provider message : String)
    (model : Option String) : String :=
  let normalized := pyLower (pyStrip message)
  let message_hash := String.mk ((hash normalized).data.take 16)
  if model.getD "" ≠ "" then
    provider ++ ":" ++ model.getD "" ++ ":" ++ message_hash
  else provider ++ ":" ++ message_hash

/-- From `cache.py` — `generate_message_hash(message)`. -/
def generate_message_hash (hash : String → String) (message : String) : String :=
  hash (pyStrip message)

/-- The SQL `SELECT * FROM response_cache WHERE cache_key = ?` on the modelled
table. -/
def dbLookup : List (String × CacheEntry) → String → Option CacheEntry
  | [], _ => none
  | (k, e) :: t, key => if k == key then some e else dbLookup t key

/-- The SQL `DELETE FROM response_cache WHERE cache_key = ?`. -/
def dbDelete : List (String × CacheEntry) → String → List (String × CacheEntry)
  | [], _ => []
  | (k, e) :: t, key => if k == key then dbDelete t key else (k, e) :: dbDelete t key

/-- The SQL `INSERT OR REPLACE INTO response_cache ...`: SQLite deletes any row
with the same primary key, then inserts. -/
def dbInsertReplace (db : List (String × CacheEntry)) (key : String)
    (e : CacheEntry) : List (String × CacheEntry) :=
  dbDelete db key ++ [(key, e)]

/-- The SQL `UPDATE response_cache SET hit_count = hit_count + 1, last_hit_at = ?
WHERE cache_key = ?`. -/
def dbBumpHit : List (String × CacheEntry) → String → ℚ → List (String × CacheEntry)
  | [], _, _ => []
  | (k, e) :: t, key, now =>
    if k == key then
      (k, { e with hit_count := e.hit_count + 1, last_hit_at := some now }) ::
        dbBumpHit t key now
    else (k, e) :: dbBumpHit t key now

/-- From `cache.py` — `@dataclass CacheStats`. -/
structure CacheStats where
  hits : Nat
  misses : Nat
  total_entries : Nat
  expired_entries : Nat
  total_tokens_saved : Nat
  size_bytes : Nat
  valid_entries : Nat
  valid_size_bytes : Nat
  oldest_entry : Option ℚ
  newest_entry : Option ℚ
  next_expiration : Option ℚ
  avg_ttl_remaining_s : Option ℚ
  deriving DecidableEq, Repr

/-- The `CacheStats` dataclass field defaults. -/
def freshCacheStats : CacheStats :=
  ⟨0, 0, 0, 0, 0, 0, 0, 0, none, none, none, none⟩

/-- The mutable state of a `CacheManager`: the `response_cache` table
and the in-memory `_stats`. -/
structure CacheState where
  db : List (String × CacheEntry)
  stats : CacheStats
  deriving DecidableEq, Repr

/-- From `cache.py` — `CacheManager.get(provider, message, model)` at
wall-clock `now`, returning the optional entry and the updated state. -/
def CacheManager.get (cfg : CacheConfig) (hash : String → String)
    (cs : CacheState) (provider message : String) (model : Option String)
    (now : ℚ) : Option CacheEntry × CacheState :=
  if !cfg.enabled then (none, cs)
  else
    let cache_key := generate_cache_key hash provider message model
    match dbLookup cs.db cache_key with
    | none =>
      (none, { cs with stats := { cs.stats with misses := cs.stats.misses + 1 } })
    | some entry =>
      if entry.is_expired now then
        (none,
         { cs with
             db := dbDelete cs.db cache_key
             stats := { cs.stats with misses := cs.stats.misses + 1 } })
      else
        let db := dbBumpHit cs.db cache_key now
        let stats := { cs.stats with hits := cs.stats.hits + 1 }
        let stats :=
          match entry.tokens_used with
          | some t =>
            if t ≠ 0 then
              { stats with total_tokens_saved := stats.total_tokens_saved + t }
            else stats
          | none => stats
        (some { entry with hit_count := entry.hit_count + 1, last_hit_at := some now },
         { cs with db := db, stats := stats })

/-- The TTL chosen by `CacheManager.put`: Python's
`ttl = ttl_s or self.config.get_ttl(provider)` (both `None` and `0.0`
fall back to the configured TTL). -/
def putTtl (cfg : CacheConfig) (provider : String) (ttl_s : Option ℚ) : ℚ :=
  match ttl_s with
  | some t => if t = 0 then cfg.get_ttl provider else t
  | none => cfg.get_ttl provider

/-- From `cache.py` — `CacheManager.put(provider, message, response, ...)` at
wall-clock `now`, returning the optional stored entry and the updated
state. -/
def CacheManager.put (cfg : CacheConfig) (hash : String → String)
    (cs : CacheState) (provider message response : String)
    (tokens_used : Option Nat) (model : Option String) (ttl_s : Option ℚ)
    (metadata : Option String) (now : ℚ) : Option CacheEntry × CacheState :=
  if !cfg.enabled then (none, cs)
  else if !cfg.should_cache_message message then (none, cs)
  else if response.length < cfg.min_response_length then (none, cs)
  else
    let cache_key := generate_cache_key hash provider message model
    let message_hash := generate_message_hash hash message
    let expires_at := now + putTtl cfg provider ttl_s
    let entry : CacheEntry :=
      ⟨cache_key, provider, message_hash, response, tokens_used, now,
       expires_at, 0, none, metadata⟩
    (some entry, { cs with db := dbInsertReplace cs.db cache_key entry })

/-! ## `backends/cli_backend.py`: output post-processing

`CLIBackend._clean_output` (the provider-specific parsing cascade) and
`_extract_auth_url` (regex search) are passed as explicit function
parameters: the claim about `_process_output` quantifies over their
results ("usable response text recovered", "auth URL detected"), so the
theorems hold for every such function.  The environment reads
(`CCB_AUTO_OPEN_AUTH`) and the OS side effects (`_open_auth_url`,
`_open_auth_terminal`) are modelled by the booleans `autoOpen`,
`openUrlOk`, `openTerminalOk` recording whether each succeeded. -/

/-- From `cli_backend.py` — `estimate_tokens`: the CJK code-point test. -/
def isCJK (c : Char) : Bool :=
  (0x4e00 ≤ c.toNat && c.toNat ≤ 0x9fff) ||
  (0x3040 ≤ c.toNat && c.toNat ≤ 0x309f) ||
  (0x30a0 ≤ c.toNat && c.toNat ≤ 0x30ff) ||
  (0xac00 ≤ c.toNat && c.toNat ≤ 0xd7af)

/-- From `cli_backend.py` — `estimate_tokens(text)`:
`int(cjk_chars / 1.5 + non_cjk_chars / 4)`. -/
def estimate_tokens (text : String) : Nat :=
  if text = "" then 0
  else
    let cjk := (text.data.filter isCJK).length
    let non := text.data.length - cjk
    (Rat.floor ((cjk : ℚ) / (3/2) + (non : ℚ) / 4)).toNat

/-- From `cli_backend.py` — `auth_indicators` in `_process_output`. -/
def auth_indicators : List String :=
  ["authorization", "authenticate", "login required", "not logged in",
   "credentials", "token expired", "unauthorized"]

/-- From `cli_backend.py` — the local `_snip(text, limit=1200)` in
`_process_output`: strip, then keep the last `limit` code points. -/
def pySnip (limit : Nat) (text : String) : String :=
  let t := pyStrip text
  if t.length ≤ limit then t
  else String.mk (t.data.drop (t.data.length - limit))

/-- Python `sep.join(parts)`. -/
def joinSep (sep : String) : List String → String
  | [] => ""
  | [x] => x
  | x :: y :: t => x ++ sep ++ joinSep sep (y :: t)

/-- The `needs_auth` flag computed by `_process_output` (`cli_backend.py`
lines 679-685): auth indicators are only consulted on a non-zero exit
code or fully empty output, and empty output from the "gemini" CLI is
always treated as needing auth. -/
def needsAuthFlag (configName stdoutT stderrT : String)
    (returncode : Int) : Bool :=
  if returncode ≠ 0 ∨ (stdoutT = "" ∧ stderrT = "") then
    let n := auth_indicators.any
      (fun i => strContains (pyLower (stdoutT ++ "\n" ++ stderrT)) i)
    if stdoutT = "" ∧ stderrT = "" ∧ configName = "gemini" then true else n
  else false

/-- The `detail` string built by `_process_output` (`cli_backend.py`
lines 729-735) from the stripped streams: the non-empty parts, each a
labelled `_snip`, joined with blank lines and stripped. -/
def cliFailureDetail (stdoutT stderrT : String) : String :=
  let parts :=
    (if stderrT ≠ "" then ["stderr:\n" ++ pySnip 1200 stderrT] else []) ++
    (if stdoutT ≠ "" ∧
        (stderrT = "" ∨ pySnip 1200 stdoutT ≠ pySnip 1200 stderrT) then
      ["stdout:\n" ++ pySnip 1200 stdoutT]
     else [])
  pyStrip (joinSep "\n\n" (parts.filter (fun p => p ≠ "")))

/-- The `error_msg` built by `_process_output` (`cli_backend.py` lines
736-739) when no usable text was recovered and the exit code is
non-zero. -/
def cliFailureMessage (returncode : Int) (stdoutT stderrT : String) : String :=
  let detail := cliFailureDetail stdoutT stderrT
  if detail ≠ "" then
    "CLI exited with code " ++ toString returncode ++ "\n" ++ detail
  else "CLI exited with code " ++ toString returncode

/-- From `cli_backend.py` — `CLIBackend._process_output(stdout, stderr,
returncode, latency_ms, input_text)`.  `cleanOutput` is
`self._clean_output`, `extractAuthUrl` is `_extract_auth_url`,
`configName` is `self.config.name`. -/
def processOutput (cleanOutput : String → String × Option String)
    (extractAuthUrl : String → Option String)
    (autoOpen openUrlOk openTerminalOk : Bool) (configName : String)
    (stdout stderr : String) (returncode : Int) (latency_ms : ℚ)
    (input_text : String) : BackendResult :=
  let stdoutT := pyStrip stdout
  let stderrT := pyStrip stderr
  let combined := stdoutT ++ "\n" ++ stderrT
  match extractAuthUrl combined with
  | some auth_url =>
    let auth_msg :=
      if autoOpen then
        "Authentication required. " ++
          (if openUrlOk then "Browser opened automatically."
           else "Please open this URL:") ++ "\n" ++ auth_url
      else "Authentication required. Please open this URL:\n" ++ auth_url
    { BackendResult.fail auth_msg with
        latency_ms := latency_ms
        meta_auth_required := true
        meta_auth_url := some auth_url }
  | none =>
    let needs_auth := needsAuthFlag configName stdoutT stderrT returncode
    if needs_auth ∧ autoOpen ∧ openTerminalOk then
      { BackendResult.fail
          ("Authentication required for " ++ configName ++
           ". A terminal window has been opened for you to complete authentication. Please retry after authenticating.") with
        latency_ms := latency_ms
        meta_auth_required := true
        meta_auth_terminal_opened := true }
    else
      let response_text := (cleanOutput stdoutT).1
      let thinking := (cleanOutput stdoutT).2
      let raw_output := stdoutT
      if response_text ≠ "" then
        let input_tokens := estimate_tokens input_text
        let output_tokens := estimate_tokens response_text
        { BackendResult.ok response_text with
            latency_ms := latency_ms
            tokens_used := some (input_tokens + output_tokens)
            meta_exit_code := some returncode
            meta_input_tokens := some input_tokens
            meta_output_tokens := some output_tokens
            meta_tokens_estimated := true
            thinking := thinking
            raw_output := some raw_output }
      else if returncode ≠ 0 then
        { BackendResult.fail (cliFailureMessage returncode stdoutT stderrT) with
            latency_ms := latency_ms }
      else
        let input_tokens := estimate_tokens input_text
        { BackendResult.ok "" with
            latency_ms := latency_ms
            tokens_used := some input_tokens
            meta_exit_code := some returncode
            meta_input_tokens := some input_tokens
            meta_output_tokens := some 0
            meta_tokens_estimated := true
            raw_output := some raw_output }

/-! ## Concrete fixtures used by witnesses -/

/-- A backend oracle that always fails with a transient error. -/
def failEnv : ExecEnv :=
  ⟨fun _ _ => BackendResult.fail "connection reset",
   ["claude", "deepseek", "gemini"], fun _ => none, 0⟩

/-- A backend oracle that always succeeds. -/
def okEnv : ExecEnv :=
  ⟨fun _ _ => BackendResult.ok "done", ["claude"], fun _ => none, 0⟩

/-- A backend oracle that always fails with an authentication error. -/
def authEnv : ExecEnv :=
  ⟨fun _ _ => BackendResult.fail "unauthorized", ["claude", "deepseek"],
   fun _ => none, 0⟩

/-- What `RetryState.record_error` guarantees about every logged event:
stamped with the wall clock, and classified from its own error text the
way `_execute_with_retries` classifies it. -/
def goodEvent (env : ExecEnv) (ev : ErrorEvent) : Prop :=
  ev.timestamp = env.now ∧
  ev.error_type = classify_error ev.error (env.statusOf ev.error)

/-! # Theorems -/

/-! ## C4 — backoff monotonicity and the post-jitter cap -/

/-- C4 counterexample: the claim "the delay actually used after jitter
never exceeds the configured maximum delay" is false.  With the default
configuration (base 1s, exponential base 2, max 30s, jitter on) and the
valid jitter draw `r = 9/10 ∈ [0, 1)`, attempt 5 yields delay
`min(2^5, 30) * (0.5 + 0.9) = 42 > 30`: the code caps before applying
jitter, so the jittered delay can exceed `max_delay_s` by up to 1.5x. -/
theorem get_delay_exceeds_max_counterexample :
    (0 ≤ (9/10 : ℚ) ∧ (9/10 : ℚ) < 1) ∧
    defaultRetryConfig.get_delay 5 (9/10) = 42 ∧
    ¬ defaultRetryConfig.get_delay 5 (9/10) ≤ defaultRetryConfig.max_delay_s := by
  norm_num [RetryConfig.get_delay, RetryConfig.raw_delay, defaultRetryConfig]

/-- C4 (amended): for every attempt `n`, the delay before jitter is
monotone non-decreasing, and the delay after jitter never exceeds
`1.5 * max_delay_s` (not `max_delay_s`: the cap is applied before the
jitter factor `0.5 + r < 1.5`), for any configuration with non-negative
base and maximum delays and exponential base at least 1. -/
theorem backoff_monotone_and_jitter_cap (cfg : RetryConfig) (n : Nat) (r : ℚ)
    (hbase : 0 ≤ cfg.base_delay_s) (hexp : 1 ≤ cfg.exponential_base)
    (hmax : 0 ≤ cfg.max_delay_s) (hr0 : 0 ≤ r) (hr1 : r < 1) :
    cfg.raw_delay n ≤ cfg.raw_delay (n + 1) ∧
    cfg.get_delay n r ≤ 3/2 * cfg.max_delay_s := by
  have hpow : cfg.exponential_base ^ n ≤ cfg.exponential_base ^ (n + 1) :=
    pow_le_pow_right₀ hexp (Nat.le_succ n)
  have hraw0 : 0 ≤ cfg.raw_delay n := by
    have h1 : (0 : ℚ) ≤ cfg.base_delay_s * cfg.exponential_base ^ n :=
      mul_nonneg hbase (pow_nonneg (le_trans zero_le_one hexp) n)
    exact le_min h1 hmax
  have hrawmax : cfg.raw_delay n ≤ cfg.max_delay_s := min_le_right _ _
  constructor
  · exact min_le_min (mul_le_mul_of_nonneg_left hpow hbase) le_rfl
  · unfold RetryConfig.get_delay
    split
    · nlinarith
    · linarith

/-- Witness for C4 (amended) at the default configuration, attempt 0,
jitter draw 0. -/
theorem backoff_monotone_and_jitter_cap_witness :
    defaultRetryConfig.raw_delay 0 ≤ defaultRetryConfig.raw_delay 1 ∧
    defaultRetryConfig.get_delay 0 0 ≤ 3/2 * defaultRetryConfig.max_delay_s :=
  backoff_monotone_and_jitter_cap defaultRetryConfig 0 0
    (by norm_num [defaultRetryConfig]) (by norm_num [defaultRetryConfig])
    (by norm_num [defaultRetryConfig]) le_rfl (by norm_num)

/-! ## C8 — the reliability-score formula -/

/-- C8: `reliability_score` equals
`0.7 * success_rate + 0.3 * (1 - min(auth_failure_count * 0.1, 0.3))`
where `success_rate = success_count / total_requests`, and with zero
observations the score is exactly 1.  (The `max(0, min(1, _))` clamp in
the code is the identity here, since the formula always lands in
`[0.21, 1]`.) -/
theorem reliability_score_formula (s : ProviderReliabilityScore) :
    (s.total_requests = 0 → s.reliability_score = 1) ∧
    (s.total_requests ≠ 0 →
      s.reliability_score =
        7/10 * ((s.success_count : ℚ) / (s.total_requests : ℚ)) +
          3/10 * (1 - min ((s.auth_failure_count : ℚ) * (1/10)) (3/10))) := by
  constructor
  · intro h
    simp [ProviderReliabilityScore.reliability_score, h]
  · intro h
    have htot : (0 : ℚ) < (s.total_requests : ℚ) := by
      exact_mod_cast Nat.pos_of_ne_zero h
    have hsucc : s.success_count ≤ s.total_requests := by
      unfold ProviderReliabilityScore.total_requests; omega
    unfold ProviderReliabilityScore.reliability_score
    rw [if_neg h]
    have hsr0 : 0 ≤ (s.success_count : ℚ) / (s.total_requests : ℚ) :=
      div_nonneg (by positivity) htot.le
    have hsr1 : (s.success_count : ℚ) / (s.total_requests : ℚ) ≤ 1 := by
      rw [div_le_one htot]
      exact_mod_cast hsucc
    have hap0 : 0 ≤ min ((s.auth_failure_count : ℚ) * (1/10)) (3/10) :=
      le_min (by positivity) (by norm_num)
    have hap3 : min ((s.auth_failure_count : ℚ) * (1/10)) (3/10) ≤ 3/10 :=
      min_le_right _ _
    have hle1 : (s.success_count : ℚ) / (s.total_requests : ℚ) * (7/10) +
        (1 - min ((s.auth_failure_count : ℚ) * (1/10)) (3/10)) * (3/10) ≤ 1 := by
      nlinarith
    have hge0 : 0 ≤ (s.success_count : ℚ) / (s.total_requests : ℚ) * (7/10) +
        (1 - min ((s.auth_failure_count : ℚ) * (1/10)) (3/10)) * (3/10) := by
      nlinarith
    dsimp only
    rw [min_eq_right hle1, max_eq_right hge0]
    ring

/-- Witness for C8 at a score with 1 success and 1 failure:
`reliability_score = 0.7 * (1/2) + 0.3 * 1 = 13/20`. -/
theorem reliability_score_formula_witness :
    (⟨"p", 1, 1, 0, 0, none, none, none⟩ :
        ProviderReliabilityScore).reliability_score = 13/20 := by
  have h := (reliability_score_formula
    ⟨"p", 1, 1, 0, 0, none, none, none⟩).2 (by decide)
  rw [h]
  norm_num [ProviderReliabilityScore.total_requests]

/-! ## C7 — re-auth invariant and fallback exclusion -/

/-- Helper: a provider that needs re-auth is reported unhealthy,
whatever its score. -/
theorem is_healthy_false_of_reauth (s : ProviderReliabilityScore)
    (h : s.needs_reauth = true) : s.is_healthy = false := by
  have h3 : 3 ≤ s.auth_failure_count := by
    simpa [ProviderReliabilityScore.needs_reauth] using h
  simp [ProviderReliabilityScore.is_healthy, h3]

/-- Helper: `bestByScore` selects an element of its candidate list. -/
theorem bestByScore_mem (f : String → ℚ) :
    ∀ (l : List String) (b : String), bestByScore f b l ∈ b :: l := by
  intro l
  induction l with
  | nil => intro b; simp [bestByScore]
  | cons c cs ih =>
    intro b
    simp only [bestByScore]
    split
    · rcases List.mem_cons.mp (ih c) with h | h <;> simp [h]
    · rcases List.mem_cons.mp (ih b) with h | h <;> simp [h]

/-- Helper: `n` consecutive auth failures drive `auth_failure_count`
to `n`. -/
theorem recordAuthFailures_count (p : String) (now : ℚ) :
    ∀ n, (recordAuthFailures p now n).auth_failure_count = n := by
  intro n
  induction n with
  | zero => rfl
  | succ k ih =>
    simp [recordAuthFailures, ProviderReliabilityScore.record_failure, ih]

/-- C7: in every reliability state — in particular every state reachable
by `record_success` / `record_failure` / `reset_auth_failures` —
`needs_reauth` holds iff the auth-failure count is at least 3, and
`needs_reauth` forces `is_healthy = false` regardless of the score; a
provider with 10 consecutive recorded auth failures needs re-auth, and a
provider needing re-auth is never the result of `get_best_fallback`. -/
theorem needs_reauth_invariant (s : ProviderReliabilityScore)
    (tr : ReliabilityTracker) (primary p : String) (chain : List String)
    (now : ℚ) :
    (s.needs_reauth = true ↔ 3 ≤ s.auth_failure_count) ∧
    (s.needs_reauth = true → s.is_healthy = false) ∧
    ((recordAuthFailures p now 10).needs_reauth = true ∧
      (recordAuthFailures p now 10).auth_failure_count = 10) ∧
    ((tr.get_score p).needs_reauth = true →
      tr.get_best_fallback primary chain ≠ some p) := by
  refine ⟨by simp [ProviderReliabilityScore.needs_reauth],
    is_healthy_false_of_reauth s, ⟨?_, recordAuthFailures_count p now 10⟩, ?_⟩
  · simp [ProviderReliabilityScore.needs_reauth, recordAuthFailures_count p now 10]
  · intro hreauth
    have hunhealthy : (tr.get_score p).is_healthy = false :=
      is_healthy_false_of_reauth _ hreauth
    unfold ReliabilityTracker.get_best_fallback
    dsimp only
    split
    · simp
    · rename_i c cs hcand
      intro hcontra
      have hbest := bestByScore_mem
        (fun q => (tr.get_score q).reliability_score) cs c
      rw [← hcand] at hbest
      have := Option.some.inj hcontra
      rw [this] at hbest
      have hp := List.of_mem_filter hbest
      simp only [Bool.and_eq_true] at hp
      rw [hunhealthy] at hp
      exact absurd hp.2 (by simp)

/-- Witness for C7: a provider with 3 recorded auth failures is
unhealthy and is not selected as best fallback even when it is the only
chain member. -/
theorem needs_reauth_invariant_witness :
    ReliabilityTracker.get_best_fallback
        ⟨[("x", ⟨"x", 0, 0, 0, 3, none, none, none⟩)]⟩ "a" ["x"] ≠ some "x" ∧
    (⟨"x", 0, 0, 0, 3, none, none, none⟩ :
        ProviderReliabilityScore).is_healthy = false :=
  ⟨(needs_reauth_invariant ⟨"x", 0, 0, 0, 3, none, none, none⟩
      ⟨[("x", ⟨"x", 0, 0, 0, 3, none, none, none⟩)]⟩ "a" "x" ["x"] 0).2.2.2
      (by decide),
   (needs_reauth_invariant ⟨"x", 0, 0, 0, 3, none, none, none⟩
      ⟨[("x", ⟨"x", 0, 0, 0, 3, none, none, none⟩)]⟩ "a" "x" ["x"] 0).2.1
      (by decide)⟩

/-! ## C3 — error-classification precedence -/

/-- C3 counterexample: the claim's text-heuristic clause
"malformed/not-found phrases yield NonRetryableClient" (listed before
the timeout/network clause) is false on the code.  The message
"invalid connection" contains the client pattern "invalid" and no
rate-limit or auth pattern, yet `classify_error` returns
`RETRYABLE_TRANSIENT`, because the code checks the transient patterns
("connection") before the client patterns. -/
theorem classify_error_precedence_counterexample :
    hasAny (pyLower "invalid connection") client_patterns = true ∧
    hasAny (pyLower "invalid connection") rate_limit_patterns = false ∧
    hasAny (pyLower "invalid connection") auth_patterns = false ∧
    classify_error "invalid connection" none = .RETRYABLE_TRANSIENT ∧
    classify_error "invalid connection" none ≠ .NON_RETRYABLE_CLIENT := by
  decide

/-- C3 (amended): the status code takes precedence over text heuristics
(429 → RetryableRateLimit, 401/403 → NonRetryableAuth, other 4xx →
NonRetryableClient, ≥ 500 → RetryableTransient); absent a status code
the pattern lists are consulted in the order rate-limit, auth,
transient, client — so malformed/not-found phrases yield
NonRetryableClient only when no rate-limit, auth or transient phrase
matches — and any unmatched error yields RetryableTransient. -/
theorem classify_error_spec (e : String) (c : Option Int) :
    (c = some 429 → classify_error e c = .RETRYABLE_RATE_LIMIT) ∧
    (∀ n : Int, c = some n → n = 401 ∨ n = 403 →
      classify_error e c = .NON_RETRYABLE_AUTH) ∧
    (∀ n : Int, c = some n →
      n ≠ 429 ∧ n ≠ 401 ∧ n ≠ 403 ∧ 400 ≤ n ∧ n < 500 →
      classify_error e c = .NON_RETRYABLE_CLIENT) ∧
    (∀ n : Int, c = some n → 500 ≤ n →
      classify_error e c = .RETRYABLE_TRANSIENT) ∧
    (c = none → hasAny (pyLower e) rate_limit_patterns = true →
      classify_error e c = .RETRYABLE_RATE_LIMIT) ∧
    (c = none → hasAny (pyLower e) rate_limit_patterns = false →
      hasAny (pyLower e) auth_patterns = true →
      classify_error e c = .NON_RETRYABLE_AUTH) ∧
    (c = none → hasAny (pyLower e) rate_limit_patterns = false →
      hasAny (pyLower e) auth_patterns = false →
      hasAny (pyLower e) transient_patterns = true →
      classify_error e c = .RETRYABLE_TRANSIENT) ∧
    (c = none → hasAny (pyLower e) rate_limit_patterns = false →
      hasAny (pyLower e) auth_patterns = false →
      hasAny (pyLower e) transient_patterns = false →
      hasAny (pyLower e) client_patterns = true →
      classify_error e c = .NON_RETRYABLE_CLIENT) ∧
    (c = none → hasAny (pyLower e) rate_limit_patterns = false →
      hasAny (pyLower e) auth_patterns = false →
      hasAny (pyLower e) transient_patterns = false →
      hasAny (pyLower e) client_patterns = false →
      classify_error e c = .RETRYABLE_TRANSIENT) := by
  refine ⟨?_, ?_, ?_, ?_, ?_, ?_, ?_, ?_, ?_⟩
  · rintro rfl
    simp [classify_error]
  · rintro n rfl (rfl | rfl) <;> simp [classify_error]
  · rintro n rfl ⟨h1, h2, h3, h4, h5⟩
    unfold classify_error
    dsimp only
    split_ifs <;> first | rfl | omega
  · rintro n rfl h
    unfold classify_error
    dsimp only
    split_ifs <;> first | rfl | omega
  · rintro rfl h
    simp [classify_error, classifyByText, h]
  · rintro rfl h1 h2
    simp [classify_error, classifyByText, h1, h2]
  · rintro rfl h1 h2 h3
    simp [classify_error, classifyByText, h1, h2, h3]
  · rintro rfl h1 h2 h3 h4
    simp [classify_error, classifyByText, h1, h2, h3, h4]
  · rintro rfl h1 h2 h3 h4
    simp [classify_error, classifyByText, h1, h2, h3, h4]

/-- Witness for C3 (amended) at a rate-limit phrase with no status
code. -/
theorem classify_error_spec_witness :
    classify_error "quota exceeded" none = .RETRYABLE_RATE_LIMIT :=
  (classify_error_spec "quota exceeded" none).2.2.2.2.1 rfl (by decide)

/-! ## C1 — fallback exhaustion bound -/

/-- Helper: one run of the per-provider retry loop makes at most `fuel`
backend calls. -/
theorem execRetriesAux_total_le (cfg : RetryConfig) (env : ExecEnv) :
    ∀ (fuel : Nat) (req : GatewayRequest) (st : RetryState)
      (last : Option BackendResult),
      (execRetriesAux cfg env fuel req st last).2.2.total_attempts ≤
        st.total_attempts + fuel := by
  intro fuel
  induction fuel with
  | zero =>
    intro req st last
    simp [execRetriesAux]
  | succ n ih =>
    intro req st last
    simp only [execRetriesAux]
    split
    · simp
    · split
      · simp [RetryState.record_error]
      · split
        · simp [RetryState.record_error]
        · refine le_trans (ih _ _ _) ?_
          simp [RetryState.record_error]
          omega

/-- Helper: the fallback loop over the remaining chain makes at most
`(max_retries + 1 - attempt) + remaining.length * (max_retries + 1)`
further backend calls. -/
theorem execFallbackLoop_total_le (cfg : RetryConfig) (env : ExecEnv) :
    ∀ (remaining : List String) (req : GatewayRequest) (st : RetryState),
      (execFallbackLoop cfg env remaining req st).2.2.total_attempts ≤
        st.total_attempts + (cfg.max_retries + 1 - st.attempt) +
          remaining.length * (cfg.max_retries + 1) := by
  intro remaining
  induction remaining with
  | nil =>
    intro req st
    have h := execRetriesAux_total_le cfg env
      (cfg.max_retries + 1 - st.attempt) req st none
    rw [execFallbackLoop]
    split
    · simpa using h
    · split
      · simpa using h
      · simpa using h
  | cons p rest ih =>
    intro req st
    have h := execRetriesAux_total_le cfg env
      (cfg.max_retries + 1 - st.attempt) req st none
    have hm : (rest.length + 1) * (cfg.max_retries + 1) =
        rest.length * (cfg.max_retries + 1) + (cfg.max_retries + 1) := by ring
    rw [execFallbackLoop]
    split
    · simp only [List.length_cons]
      omega
    · split
      · simp only [List.length_cons]
        omega
      · refine le_trans (ih _ _) ?_
        simp only [List.length_cons]
        omega

/-- C1: with retry enabled, for a filtered fallback chain of length `k`
the executor makes at most `(max_retries + 1) * (k + 1)` backend calls
before returning; termination itself is definitional, since the
embedded loop is structurally recursive on the remaining retry fuel and
the remaining fallback chain. -/
theorem fallback_exhaustion_bound (cfg : RetryConfig) (env : ExecEnv)
    (avail : List String) (req : GatewayRequest)
    (hen : cfg.enabled = true) :
    (execute_with_retry cfg env avail req).2.2.total_attempts ≤
      (cfg.max_retries + 1) *
        (((cfg.get_fallbacks req.provider).filter
            (fun p => avail.contains p)).length + 1) := by
  unfold execute_with_retry
  rw [hen]
  simp only [Bool.not_true, Bool.false_eq_true, if_false]
  refine le_trans (execFallbackLoop_total_le cfg env _ req _) ?_
  dsimp only
  have hk : ((cfg.get_fallbacks req.provider).filter
      (fun p => avail.contains p)).length *
        (cfg.max_retries + 1) + (cfg.max_retries + 1) =
      (cfg.max_retries + 1) *
        (((cfg.get_fallbacks req.provider).filter
            (fun p => avail.contains p)).length + 1) := by
    ring
  omega

/-- Witness for C1: a provider whose backend always fails transiently,
with the default chain `claude → [deepseek, gemini]` fully available,
stays within the `(3 + 1) * (2 + 1)` bound. -/
theorem fallback_exhaustion_bound_witness :
    (execute_with_retry defaultRetryConfig failEnv
        ["claude", "deepseek", "gemini"] ⟨"claude", 60⟩).2.2.total_attempts ≤
      (defaultRetryConfig.max_retries + 1) *
        (((defaultRetryConfig.get_fallbacks "claude").filter
            (fun p => (["claude", "deepseek", "gemini"] : List String).contains p)).length + 1) :=
  fallback_exhaustion_bound defaultRetryConfig failEnv
    ["claude", "deepseek", "gemini"] ⟨"claude", 60⟩ rfl

/-! ## C2 — auth failures short-circuit the provider but not the chain -/

/-- C2: when the current provider's first execution fails and is
classified `NON_RETRYABLE_AUTH`, the executor performs exactly one
backend call on that provider (`total_attempts` rises by 1 and the
per-provider `attempt` counter, recorded in the event, stays at its
entry value — no same-provider retry), and, with fallback enabled and a
fallback remaining, continues with the next provider of the chain. -/
theorem auth_short_circuit (cfg : RetryConfig) (env : ExecEnv) (p : String)
    (rest : List String) (req : GatewayRequest) (st : RetryState)
    (hfb : cfg.fallback_enabled = true)
    (hat : st.attempt ≤ cfg.max_retries)
    (hfail : (executeOnce env req st.total_attempts).success = false)
    (hauth : classify_error ((executeOnce env req st.total_attempts).error.getD "")
        (env.statusOf ((executeOnce env req st.total_attempts).error.getD "")) =
          .NON_RETRYABLE_AUTH) :
    execFallbackLoop cfg env (p :: rest) req st =
      execFallbackLoop cfg env rest { req with provider := p }
        { st with
            current_provider := p
            attempt := 0
            total_attempts := st.total_attempts + 1
            fallback_index := st.fallback_index + 1
            errors := st.errors ++
              [⟨st.current_provider,
                (executeOnce env req st.total_attempts).error.getD "",
                .NON_RETRYABLE_AUTH, st.attempt, env.now⟩] } := by
  have hfuel : cfg.max_retries + 1 - st.attempt =
      cfg.max_retries - st.attempt + 1 := by omega
  conv_lhs => rw [execFallbackLoop, hfuel]
  simp only [execRetriesAux, hfail, hauth, hfb, RetryState.record_error,
    Bool.false_eq_true, Bool.not_true, if_false, if_true]
  simp [hfail]

/-- Witness for C2: an always-unauthorized backend for "claude" with
fallback "deepseek" remaining. -/
theorem auth_short_circuit_witness :
    execFallbackLoop defaultRetryConfig authEnv ["deepseek"] ⟨"claude", 60⟩
        ⟨"claude", "claude", 0, 0, -1, [], 0⟩ =
      execFallbackLoop defaultRetryConfig authEnv [] ⟨"deepseek", 60⟩
        ⟨"claude", "deepseek", 0, 1, 0,
         [⟨"claude", "unauthorized", .NON_RETRYABLE_AUTH, 0, 0⟩], 0⟩ := by
  have h := auth_short_circuit defaultRetryConfig authEnv "deepseek" []
    ⟨"claude", 60⟩ ⟨"claude", "claude", 0, 0, -1, [], 0⟩ rfl (by decide)
    (by decide) (by decide)
  simpa using h

/-! ## C9 — what the error log records -/

/-- Helper: across one run of the per-provider retry loop, the error
log grows by the number of failed calls — every call except a final
successful one appends exactly one event. -/
theorem execRetriesAux_errors_len (cfg : RetryConfig) (env : ExecEnv) :
    ∀ (fuel : Nat) (req : GatewayRequest) (st : RetryState)
      (last : Option BackendResult) (r : BackendResult)
      (req' : GatewayRequest) (st' : RetryState),
      (∀ r0, last = some r0 → r0.success = false) →
      execRetriesAux cfg env fuel req st last = (r, req', st') →
      st'.errors.length + st.total_attempts + (if r.success then 1 else 0) =
        st.errors.length + st'.total_attempts := by
  intro fuel
  induction fuel with
  | zero =>
    intro req st last r req' st' hlast heq
    simp only [execRetriesAux] at heq
    injection heq with h1 h23
    injection h23 with h2 h3
    subst h1 h2 h3
    cases last with
    | none => simp [BackendResult.fail]
    | some r0 => simp [Option.getD, hlast r0 rfl]
  | succ n ih =>
    intro req st last r req' st' hlast heq
    simp only [execRetriesAux] at heq
    by_cases hs : (executeOnce env req st.total_attempts).success = true
    · rw [if_pos hs] at heq
      injection heq with h1 h23
      injection h23 with h2 h3
      subst h1 h2 h3
      simp [hs]
      omega
    · rw [if_neg hs] at heq
      rw [Bool.not_eq_true] at hs
      by_cases he :
          classify_error ((executeOnce env req st.total_attempts).error.getD "")
              (env.statusOf ((executeOnce env req st.total_attempts).error.getD "")) =
              ErrorType.NON_RETRYABLE_AUTH ∨
            classify_error ((executeOnce env req st.total_attempts).error.getD "")
              (env.statusOf ((executeOnce env req st.total_attempts).error.getD "")) =
              ErrorType.NON_RETRYABLE_CLIENT ∨
            classify_error ((executeOnce env req st.total_attempts).error.getD "")
              (env.statusOf ((executeOnce env req st.total_attempts).error.getD "")) =
              ErrorType.NON_RETRYABLE_PERMANENT
      · rw [if_pos he] at heq
        injection heq with h1 h23
        injection h23 with h2 h3
        subst h1 h2 h3
        simp [RetryState.record_error, hs]
        omega
      · rw [if_neg he] at heq
        simp only [RetryState.record_error] at heq
        by_cases hb : st.attempt + 1 > cfg.max_retries
        · rw [if_pos hb] at heq
          injection heq with h1 h23
          injection h23 with h2 h3
          subst h1 h2 h3
          simp [hs]
          omega
        · rw [if_neg hb] at heq
          have H := ih _ _ _ _ _ _
            (fun r0 h0 => by injection h0 with h0; rw [← h0]; exact hs) heq
          dsimp only at H
          simp only [List.length_append, List.length_singleton] at H
          omega

/-- Helper: across the whole fallback loop, the error log grows by the
number of failed backend calls. -/
theorem execFallbackLoop_errors_len (cfg : RetryConfig) (env : ExecEnv) :
    ∀ (remaining : List String) (req : GatewayRequest) (st : RetryState)
      (r : BackendResult) (req' : GatewayRequest) (st' : RetryState),
      execFallbackLoop cfg env remaining req st = (r, req', st') →
      st'.errors.length + st.total_attempts + (if r.success then 1 else 0) =
        st.errors.length + st'.total_attempts := by
  intro remaining
  induction remaining with
  | nil =>
    intro req st r req' st' heq
    rw [execFallbackLoop] at heq
    rcases hin : execRetriesAux cfg env (cfg.max_retries + 1 - st.attempt)
      req st none with ⟨ri, reqi, sti⟩
    rw [hin] at heq
    have H := execRetriesAux_errors_len cfg env _ _ _ _ _ _ _
      (fun r0 h0 => by cases h0) hin
    dsimp only at heq
    split at heq
    · injection heq with h1 h23
      injection h23 with h2 h3
      subst h1 h2 h3
      exact H
    · split at heq
      · injection heq with h1 h23
        injection h23 with h2 h3
        subst h1 h2 h3
        exact H
      · injection heq with h1 h23
        injection h23 with h2 h3
        subst h1 h2 h3
        simpa using H
  | cons p rest ih =>
    intro req st r req' st' heq
    rw [execFallbackLoop] at heq
    rcases hin : execRetriesAux cfg env (cfg.max_retries + 1 - st.attempt)
      req st none with ⟨ri, reqi, sti⟩
    rw [hin] at heq
    have H := execRetriesAux_errors_len cfg env _ _ _ _ _ _ _
      (fun r0 h0 => by cases h0) hin
    dsimp only at heq
    split at heq
    · injection heq with h1 h23
      injection h23 with h2 h3
      subst h1 h2 h3
      exact H
    · split at heq
      · injection heq with h1 h23
        injection h23 with h2 h3
        subst h1 h2 h3
        exact H
      · rename_i hri _
        rw [Bool.not_eq_true] at hri
        rw [hri] at H
        simp only [Bool.false_eq_true, if_false] at H
        have H2 := ih _ _ _ _ _ heq
        dsimp only at H2
        omega

/-- Helper: every event the per-provider retry loop appends is stamped
with the wall clock and classified from its own error text. -/
theorem execRetriesAux_goodEvents (cfg : RetryConfig) (env : ExecEnv) :
    ∀ (fuel : Nat) (req : GatewayRequest) (st : RetryState)
      (last : Option BackendResult) (r : BackendResult)
      (req' : GatewayRequest) (st' : RetryState),
      execRetriesAux cfg env fuel req st last = (r, req', st') →
      (∀ ev ∈ st.errors, goodEvent env ev) →
      ∀ ev ∈ st'.errors, goodEvent env ev := by
  intro fuel
  induction fuel with
  | zero =>
    intro req st last r req' st' heq hgood
    simp only [execRetriesAux] at heq
    injection heq with h1 h23
    injection h23 with h2 h3
    subst h3
    exact hgood
  | succ n ih =>
    intro req st last r req' st' heq hgood
    simp only [execRetriesAux] at heq
    have hgood' : ∀ ev ∈ (RetryState.record_error
        { st with total_attempts := st.total_attempts + 1 }
        st.current_provider
        ((executeOnce env req st.total_attempts).error.getD "")
        (classify_error ((executeOnce env req st.total_attempts).error.getD "")
          (env.statusOf ((executeOnce env req st.total_attempts).error.getD "")))
        env.now).errors, goodEvent env ev := by
      intro ev hev
      simp only [RetryState.record_error, List.mem_append,
        List.mem_singleton] at hev
      rcases hev with hev | hev
      · exact hgood ev hev
      · subst hev
        exact ⟨rfl, rfl⟩
    split at heq
    · injection heq with h1 h23
      injection h23 with h2 h3
      subst h3
      exact hgood
    · split at heq
      · injection heq with h1 h23
        injection h23 with h2 h3
        subst h3
        exact hgood'
      · split at heq
        · injection heq with h1 h23
          injection h23 with h2 h3
          subst h3
          exact hgood'
        · exact ih _ _ _ _ _ _ heq hgood'

/-- Helper: every event the fallback loop appends is stamped with the
wall clock and classified from its own error text. -/
theorem execFallbackLoop_goodEvents (cfg : RetryConfig) (env : ExecEnv) :
    ∀ (remaining : List String) (req : GatewayRequest) (st : RetryState)
      (r : BackendResult) (req' : GatewayRequest) (st' : RetryState),
      execFallbackLoop cfg env remaining req st = (r, req', st') →
      (∀ ev ∈ st.errors, goodEvent env ev) →
      ∀ ev ∈ st'.errors, goodEvent env ev := by
  intro remaining
  induction remaining with
  | nil =>
    intro req st r req' st' heq hgood
    rw [execFallbackLoop] at heq
    rcases hin : execRetriesAux cfg env (cfg.max_retries + 1 - st.attempt)
      req st none with ⟨ri, reqi, sti⟩
    rw [hin] at heq
    have H := execRetriesAux_goodEvents cfg env _ _ _ _ _ _ _ hin hgood
    dsimp only at heq
    split at heq
    · injection heq with h1 h23
      injection h23 with h2 h3
      subst h3
      exact H
    · split at heq
      · injection heq with h1 h23
        injection h23 with h2 h3
        subst h3
        exact H
      · injection heq with h1 h23
        injection h23 with h2 h3
        subst h3
        exact H
  | cons p rest ih =>
    intro req st r req' st' heq hgood
    rw [execFallbackLoop] at heq
    rcases hin : execRetriesAux cfg env (cfg.max_retries + 1 - st.attempt)
      req st none with ⟨ri, reqi, sti⟩
    rw [hin] at heq
    have H := execRetriesAux_goodEvents cfg env _ _ _ _ _ _ _ hin hgood
    dsimp only at heq
    split at heq
    · injection heq with h1 h23
      injection h23 with h2 h3
      subst h3
      exact H
    · split at heq
      · injection heq with h1 h23
        injection h23 with h2 h3
        subst h3
        exact H
      · exact ih _ _ _ _ _ heq H

/-- C9 counterexample: the claim "every execution attempt — successful
or not — is appended to the error log, so the number of recorded events
equals the total number of attempts" is false.  A backend that succeeds
on the first call produces one attempt and an empty error log:
successful attempts are never recorded (`record_error` is only reached
on failure). -/
theorem error_log_counterexample :
    (execute_with_retry defaultRetryConfig okEnv ["claude"]
        ⟨"claude", 60⟩).2.2.total_attempts = 1 ∧
    (execute_with_retry defaultRetryConfig okEnv ["claude"]
        ⟨"claude", 60⟩).2.2.errors = [] ∧
    (execute_with_retry defaultRetryConfig okEnv ["claude"]
        ⟨"claude", 60⟩).2.2.errors.length ≠
      (execute_with_retry defaultRetryConfig okEnv ["claude"]
        ⟨"claude", 60⟩).2.2.total_attempts := by
  decide

/-- C9 (amended): with retry enabled, every *failed* attempt — and only
failed attempts — is appended to the error log as an event carrying the
provider, the error text, its classification and a timestamp, so the
number of recorded events equals the total number of attempts minus one
when the final result is a success, and equals it exactly on terminal
failure. -/
theorem error_log_matches_failed_attempts (cfg : RetryConfig)
    (env : ExecEnv) (avail : List String) (req : GatewayRequest)
    (hen : cfg.enabled = true) :
    (execute_with_retry cfg env avail req).2.2.errors.length +
        (if (execute_with_retry cfg env avail req).1.success then 1 else 0) =
      (execute_with_retry cfg env avail req).2.2.total_attempts ∧
    ∀ ev ∈ (execute_with_retry cfg env avail req).2.2.errors,
      goodEvent env ev := by
  rcases hout : execute_with_retry cfg env avail req with ⟨r, req', st'⟩
  unfold execute_with_retry at hout
  rw [hen] at hout
  simp only [Bool.not_true, Bool.false_eq_true, if_false] at hout
  have H := execFallbackLoop_errors_len cfg env _ _ _ _ _ _ hout
  have G := execFallbackLoop_goodEvents cfg env _ _ _ _ _ _ hout
    (by intro ev hev; cases hev)
  dsimp only at H ⊢
  constructor
  · simpa using H
  · exact G

/-- Witness for C9 (amended): an always-failing backend exhausts the
whole budget and records one event per attempt. -/
theorem error_log_matches_failed_attempts_witness :
    (execute_with_retry defaultRetryConfig failEnv
        ["claude", "deepseek", "gemini"] ⟨"claude", 60⟩).2.2.errors.length +
        (if (execute_with_retry defaultRetryConfig failEnv
            ["claude", "deepseek", "gemini"] ⟨"claude", 60⟩).1.success
          then 1 else 0) =
      (execute_with_retry defaultRetryConfig failEnv
        ["claude", "deepseek", "gemini"] ⟨"claude", 60⟩).2.2.total_attempts :=
  (error_log_matches_failed_attempts defaultRetryConfig failEnv
    ["claude", "deepseek", "gemini"] ⟨"claude", 60⟩ rfl).1

/-! ## C5 / C6 — cache round-trip and exclusions -/

/-- Helper: deleting a key removes it. -/
theorem dbLookup_dbDelete (db : List (String × CacheEntry)) (key : String) :
    dbLookup (dbDelete db key) key = none := by
  induction db with
  | nil => rfl
  | cons kv t ih =>
    obtain ⟨k, e⟩ := kv
    by_cases h : k == key
    · simpa [dbDelete, h] using ih
    · simp [dbDelete, dbLookup, h, ih]

/-- Helper: after `INSERT OR REPLACE`, looking the key up returns the
new row. -/
theorem dbLookup_insertReplace (db : List (String × CacheEntry))
    (key : String) (e : CacheEntry) :
    dbLookup (dbInsertReplace db key e) key = some e := by
  unfold dbInsertReplace
  induction db with
  | nil => simp [dbLookup]
  | cons kv t ih =>
    obtain ⟨k, e'⟩ := kv
    by_cases h : k == key
    · simpa [dbDelete, h] using ih
    · simpa [dbDelete, dbLookup, h] using ih

/-- Helper: the hit-count `UPDATE` is visible through a subsequent
lookup of the same key. -/
theorem dbLookup_dbBumpHit (db : List (String × CacheEntry))
    (key : String) (now : ℚ) :
    dbLookup (dbBumpHit db key now) key =
      (dbLookup db key).map
        (fun e => { e with hit_count := e.hit_count + 1,
                           last_hit_at := some now }) := by
  induction db with
  | nil => rfl
  | cons kv t ih =>
    obtain ⟨k, e⟩ := kv
    by_cases h : k == key
    · simp [dbBumpHit, dbLookup, h]
    · simp [dbBumpHit, dbLookup, h, ih]

/-- C5: with caching enabled, for a message that passes the volatile
filter and a response meeting the minimum length, `put(p, m, r)`
followed by `get(p, m)` before the entry expires is a cache hit: it
returns the stored response `r` without any backend involvement, the
returned entry's hit count is exactly 1 (it was stored at 0 and this
get incremented it by exactly 1, both in the returned entry and in the
store), and the hit statistic rises by exactly 1. -/
theorem cache_round_trip (cfg : CacheConfig) (hash : String → String)
    (cs : CacheState) (provider message response : String)
    (tokens_used : Option Nat) (model : Option String) (ttl_s : Option ℚ)
    (metadata : Option String) (now₁ now₂ : ℚ)
    (hen : cfg.enabled = true)
    (hmsg : cfg.should_cache_message message = true)
    (hlen : cfg.min_response_length ≤ response.length)
    (hfresh : ¬ now₂ > now₁ + putTtl cfg provider ttl_s) :
    ((CacheManager.get cfg hash
        (CacheManager.put cfg hash cs provider message response tokens_used
          model ttl_s metadata now₁).2
        provider message model now₂).1.map CacheEntry.response =
      some response) ∧
    ((CacheManager.get cfg hash
        (CacheManager.put cfg hash cs provider message response tokens_used
          model ttl_s metadata now₁).2
        provider message model now₂).1.map CacheEntry.hit_count = some 1) ∧
    ((CacheManager.get cfg hash
        (CacheManager.put cfg hash cs provider message response tokens_used
          model ttl_s metadata now₁).2
        provider message model now₂).2.stats.hits =
      (CacheManager.put cfg hash cs provider message response tokens_used
          model ttl_s metadata now₁).2.stats.hits + 1) ∧
    ((dbLookup (CacheManager.get cfg hash
        (CacheManager.put cfg hash cs provider message response tokens_used
          model ttl_s metadata now₁).2
        provider message model now₂).2.db
        (generate_cache_key hash provider message model)).map
          CacheEntry.hit_count = some 1) := by
  have hput : (CacheManager.put cfg hash cs provider message response
      tokens_used model ttl_s metadata now₁).2 =
      { cs with db := (dbInsertReplace cs.db
          (generate_cache_key hash provider message model)
          ⟨generate_cache_key hash provider message model, provider,
           generate_message_hash hash message, response, tokens_used, now₁,
           now₁ + putTtl cfg provider ttl_s, 0, none, metadata⟩) } := by
    unfold CacheManager.put
    rw [hen]
    simp [hmsg, Nat.not_lt.mpr hlen]
  rw [hput]
  unfold CacheManager.get
  rw [hen]
  simp only [Bool.not_true, Bool.false_eq_true, if_false]
  rw [dbLookup_insertReplace]
  simp only [CacheEntry.is_expired]
  rw [if_neg (by simpa using hfresh)]
  refine ⟨rfl, rfl, ?_, ?_⟩
  · dsimp only
    split <;> first | rfl | (split <;> rfl)
  · dsimp only
    rw [dbLookup_dbBumpHit, dbLookup_insertReplace]
    rfl

/-- Witness for C5 at a concrete cacheable message. -/
theorem cache_round_trip_witness :
    ((CacheManager.get defaultCacheConfig (fun s => s)
        (CacheManager.put defaultCacheConfig (fun s => s) ⟨[], freshCacheStats⟩
          "claude" "hello world?" "0123456789" none none none none 0).2
        "claude" "hello world?" none 0).1.map CacheEntry.response =
      some "0123456789") ∧
    ((CacheManager.get defaultCacheConfig (fun s => s)
        (CacheManager.put defaultCacheConfig (fun s => s) ⟨[], freshCacheStats⟩
          "claude" "hello world?" "0123456789" none none none none 0).2
        "claude" "hello world?" none 0).1.map CacheEntry.hit_count = some 1) := by
  have h := cache_round_trip defaultCacheConfig (fun s => s)
    ⟨[], freshCacheStats⟩ "claude" "hello world?" "0123456789" none none none
    none 0 0 rfl (by decide) (by decide)
    (by norm_num [putTtl, CacheConfig.get_ttl, dictGet, defaultCacheConfig,
      defaultProviderTtl])
  exact ⟨h.1, h.2.1⟩

/-- C6: a `put` whose message matches a volatile pattern, whose response
is below the minimum length, or issued while caching is disabled,
returns `None` silently and stores nothing — and if the store held no
entry for that key, a subsequent `get` of the same message is a miss
(so a repeated submission goes back to the backend). -/
theorem cache_exclusion (cfg : CacheConfig) (hash : String → String)
    (cs : CacheState) (provider message response : String)
    (tokens_used : Option Nat) (model : Option String) (ttl_s : Option ℚ)
    (metadata : Option String) (now₁ now₂ : ℚ)
    (h : cfg.enabled = false ∨ cfg.should_cache_message message = false ∨
      response.length < cfg.min_response_length) :
    (CacheManager.put cfg hash cs provider message response tokens_used
        model ttl_s metadata now₁).1 = none ∧
    (CacheManager.put cfg hash cs provider message response tokens_used
        model ttl_s metadata now₁).2 = cs ∧
    (dbLookup cs.db (generate_cache_key hash provider message model) = none →
      (CacheManager.get cfg hash
        (CacheManager.put cfg hash cs provider message response tokens_used
          model ttl_s metadata now₁).2
        provider message model now₂).1 = none) := by
  have hput : CacheManager.put cfg hash cs provider message response
      tokens_used model ttl_s metadata now₁ = (none, cs) := by
    unfold CacheManager.put
    rcases h with h | h | h
    · rw [h]
      rfl
    · rw [h]
      simp
    · split_ifs <;> rfl
  refine ⟨by rw [hput], by rw [hput], ?_⟩
  intro hmiss
  rw [hput]
  unfold CacheManager.get
  dsimp only
  split
  · rfl
  · rw [hmiss]

/-- Witness for C6: "what is the weather today" matches the volatile
patterns, so a long-enough response is still not stored, and a repeat
lookup misses. -/
theorem cache_exclusion_witness :
    (CacheManager.put defaultCacheConfig (fun s => s) ⟨[], freshCacheStats⟩
        "claude" "what is the weather today" "a perfectly long response"
        none none none none 0).1 = none ∧
    (CacheManager.get defaultCacheConfig (fun s => s)
        (CacheManager.put defaultCacheConfig (fun s => s) ⟨[], freshCacheStats⟩
          "claude" "what is the weather today" "a perfectly long response"
          none none none none 0).2
        "claude" "what is the weather today" none 0).1 = none := by
  have h := cache_exclusion defaultCacheConfig (fun s => s)
    ⟨[], freshCacheStats⟩ "claude" "what is the weather today"
    "a perfectly long response" none none none none 0 0
    (Or.inr (Or.inl (by decide)))
  exact ⟨h.1, h.2.2 (by decide)⟩

/-! ## C10 — CLI output post-processing

Auxiliary facts about the embedded Python string primitives, needed to
show that the diagnostic error message built by `_process_output`
really contains the snipped stdout/stderr. -/

/-- A list starts with itself (followed by anything). -/
theorem chStarts_self_append (p t : List Char) : chStarts p (p ++ t) = true := by
  induction p with
  | nil => rfl
  | cons c cs ih => simp [chStarts, ih]

/-- A prefix occurrence is an occurrence. -/
theorem chContains_of_starts :
    ∀ (p s : List Char), chStarts p s = true → chContains p s = true
  | p, [], h => by simpa [chContains] using h
  | _, _ :: _, h => by simp [chContains, h]

/-- An occurrence survives consing on the left. -/
theorem chContains_cons (p : List Char) (c : Char) (t : List Char)
    (h : chContains p t = true) : chContains p (c :: t) = true := by
  simp [chContains, h]

/-- An occurrence survives appending on the left. -/
theorem chContains_append_right (p a t : List Char)
    (h : chContains p t = true) : chContains p (a ++ t) = true := by
  induction a with
  | nil => simpa using h
  | cons c cs ih => exact chContains_cons p c _ ih

/-- A list occurs at the front of itself followed by anything. -/
theorem chContains_self_append (p b : List Char) :
    chContains p (p ++ b) = true :=
  chContains_of_starts _ _ (chStarts_self_append p b)

/-- A list occurs in itself. -/
theorem chContains_self (p : List Char) : chContains p p = true := by
  have h := chContains_self_append p []
  simpa using h

/-- The head surviving `dropWhile` fails the predicate. -/
theorem dropWhile_head_not (p : Char → Bool) :
    ∀ (l : List Char) (c : Char), (l.dropWhile p).head? = some c → p c = false := by
  intro l
  induction l with
  | nil =>
    intro c h
    cases h
  | cons a t ih =>
    intro c h
    rw [List.dropWhile_cons] at h
    by_cases hp : p a
    · rw [if_pos hp] at h
      exact ih c h
    · rw [if_neg hp] at h
      obtain rfl : a = c := by simpa using h
      cases hpc : p a with
      | false => rfl
      | true => exact absurd hpc hp

/-- A non-empty suffix has the same last element. -/
theorem getLast?_of_suffix {l s : List Char} (h : s <:+ l) (hne : s ≠ []) :
    l.getLast? = s.getLast? := by
  obtain ⟨t, rfl⟩ := h
  exact List.getLast?_append_of_ne_nil t hne

/-- The last element of a stripped list is not whitespace. -/
theorem stripList_getLast_not (l : List Char) (c : Char)
    (h : (stripList l).getLast? = some c) : pyWs c = false := by
  unfold stripList at h
  rw [List.getLast?_reverse] at h
  exact dropWhile_head_not pyWs _ c h

/-- The head of a stripped list is not whitespace. -/
theorem stripList_head_not (l : List Char) (c : Char)
    (h : (stripList l).head? = some c) : pyWs c = false := by
  unfold stripList at h
  rw [List.head?_reverse] at h
  have hne : ((l.dropWhile pyWs).reverse).dropWhile pyWs ≠ [] := by
    intro h0
    rw [h0] at h
    cases h
  have h2 : ((l.dropWhile pyWs).reverse).getLast? = some c :=
    (getLast?_of_suffix (List.dropWhile_suffix pyWs) hne).trans h
  rw [List.getLast?_reverse] at h2
  exact dropWhile_head_not pyWs _ c h2

/-- Stripping a list whose ends are not whitespace is the identity. -/
theorem stripList_id (l : List Char)
    (h1 : ∀ c, l.head? = some c → pyWs c = false)
    (h2 : ∀ c, l.getLast? = some c → pyWs c = false) :
    stripList l = l := by
  cases l with
  | nil => rfl
  | cons a t =>
    have ha : pyWs a = false := h1 a rfl
    unfold stripList
    rw [List.dropWhile_cons, if_neg (by simp [ha])]
    rcases hrev : (a :: t).reverse with _ | ⟨b, m⟩
    · exact absurd hrev (by simp)
    · have hb : (a :: t).getLast? = some b := by
        rw [← List.head?_reverse, hrev]
        rfl
      have hwb : pyWs b = false := h2 b hb
      rw [List.dropWhile_cons, if_neg (by simp [hwb]), ← hrev,
        List.reverse_reverse]

/-- Python's `strip` is idempotent. -/
theorem stripList_idem (l : List Char) : stripList (stripList l) = stripList l :=
  stripList_id _ (stripList_head_not l) (stripList_getLast_not l)

/-- A string is non-empty iff its code-point list is. -/
theorem string_data_ne (s : String) : s ≠ "" ↔ s.data ≠ [] := by
  rw [ne_eq, ne_eq, String.ext_iff]

/-- A string whose code points are already stripped strips to itself. -/
theorem pyStrip_eq_self (s : String) (h : stripList s.data = s.data) :
    pyStrip s = s :=
  String.ext h

/-- The last code point of a `_snip` result is not whitespace. -/
theorem pySnip_getLast_not (n : Nat) (s : String) (c : Char)
    (h : (pySnip n s).data.getLast? = some c) : pyWs c = false := by
  unfold pySnip at h
  dsimp only at h
  split at h
  · exact stripList_getLast_not s.data c h
  · have h' : ((stripList s.data).drop
        ((stripList s.data).length - n)).getLast? = some c := h
    have hne : (stripList s.data).drop ((stripList s.data).length - n) ≠ [] := by
      intro h0
      rw [h0] at h'
      cases h'
    exact stripList_getLast_not s.data c
      ((getLast?_of_suffix (List.drop_suffix _ _) hne).trans h')

/-- A `_snip` of a string with non-empty stripped content is non-empty
(for a positive snip budget). -/
theorem pySnip_data_ne (n : Nat) (hn : 0 < n) (s : String)
    (h : stripList s.data ≠ []) : (pySnip n s).data ≠ [] := by
  unfold pySnip
  dsimp only
  split
  · exact h
  · rename_i hlen
    intro h0
    have h0' : (stripList s.data).drop ((stripList s.data).length - n) = [] := h0
    have hl := congrArg List.length h0'
    rw [List.length_drop] at hl
    simp only [List.length_nil] at hl
    have hlen' : ¬ (stripList s.data).length ≤ n := hlen
    omega

/-- Helper: the failure message built for a non-zero exit code contains
the snipped stderr (when stderr is non-empty) and the snipped stdout
(when the stdout part is included), for already-stripped streams. -/
theorem cliFailureMessage_contains (rc : Int) (oT eT : String)
    (hoT : stripList oT.data = oT.data) (heT : stripList eT.data = eT.data) :
    (eT ≠ "" →
      strContains (cliFailureMessage rc oT eT) (pySnip 1200 eT) = true) ∧
    (oT ≠ "" ∧ (eT = "" ∨ pySnip 1200 oT ≠ pySnip 1200 eT) →
      strContains (cliFailureMessage rc oT eT) (pySnip 1200 oT) = true) := by
  by_cases hE : eT ≠ ""
  · have hsE : (pySnip 1200 eT).data ≠ [] :=
      pySnip_data_ne 1200 (by norm_num) eT
        (by rw [heT]; exact (string_data_ne eT).mp hE)
    have hpE : ("stderr:\n" ++ pySnip 1200 eT) ≠ "" := by
      rw [string_data_ne, String.data_append]
      exact List.append_ne_nil_of_left_ne_nil (by decide) _
    by_cases hC : oT ≠ "" ∧ (eT = "" ∨ pySnip 1200 oT ≠ pySnip 1200 eT)
    · have hsO : (pySnip 1200 oT).data ≠ [] :=
        pySnip_data_ne 1200 (by norm_num) oT
          (by rw [hoT]; exact (string_data_ne oT).mp hC.1)
      have hpO : ("stdout:\n" ++ pySnip 1200 oT) ≠ "" := by
        rw [string_data_ne, String.data_append]
        exact List.append_ne_nil_of_left_ne_nil (by decide) _
      have hdetail : cliFailureDetail oT eT =
          ("stderr:\n" ++ pySnip 1200 eT) ++ "\n\n" ++
            ("stdout:\n" ++ pySnip 1200 oT) := by
        unfold cliFailureDetail
        rw [if_pos hE, if_pos hC]
        dsimp only
        rw [List.cons_append, List.nil_append,
          List.filter_cons_of_pos (by simpa using hpE),
          List.filter_cons_of_pos (by simpa using hpO), List.filter_nil]
        simp only [joinSep]
        apply pyStrip_eq_self
        apply stripList_id
        · intro c hc
          simp only [String.data_append, List.append_assoc] at hc
          rw [List.head?_append_of_ne_nil _ (by decide)] at hc
          rw [show ("stderr:\n" : String).data.head? = some 's' from rfl] at hc
          obtain rfl : 's' = c := by simpa using hc
          decide
        · intro c hc
          simp only [String.data_append] at hc
          rw [List.getLast?_append_of_ne_nil _
            (List.append_ne_nil_of_left_ne_nil (by decide) _)] at hc
          rw [List.getLast?_append_of_ne_nil _ hsO] at hc
          exact pySnip_getLast_not 1200 oT c hc
      have hdet_ne : cliFailureDetail oT eT ≠ "" := by
        rw [hdetail, string_data_ne]
        simp only [String.data_append]
        exact List.append_ne_nil_of_left_ne_nil
          (List.append_ne_nil_of_left_ne_nil
            (List.append_ne_nil_of_left_ne_nil (by decide) _) _) _
      have hmsg : cliFailureMessage rc oT eT =
          "CLI exited with code " ++ toString rc ++ "\n" ++
            (("stderr:\n" ++ pySnip 1200 eT) ++ "\n\n" ++
              ("stdout:\n" ++ pySnip 1200 oT)) := by
        unfold cliFailureMessage
        dsimp only
        rw [if_pos hdet_ne, hdetail]
      constructor
      · intro _
        rw [hmsg]
        unfold strContains
        simp only [String.data_append, List.append_assoc]
        repeat first
          | exact chContains_self _
          | exact chContains_self_append _ _
          | apply chContains_append_right
      · intro _
        rw [hmsg]
        unfold strContains
        simp only [String.data_append, List.append_assoc]
        repeat first
          | exact chContains_self _
          | exact chContains_self_append _ _
          | apply chContains_append_right
    · have hdetail : cliFailureDetail oT eT =
          "stderr:\n" ++ pySnip 1200 eT := by
        unfold cliFailureDetail
        rw [if_pos hE, if_neg hC]
        dsimp only
        rw [List.append_nil,
          List.filter_cons_of_pos (by simpa using hpE), List.filter_nil]
        simp only [joinSep]
        apply pyStrip_eq_self
        apply stripList_id
        · intro c hc
          simp only [String.data_append, List.append_assoc] at hc
          rw [List.head?_append_of_ne_nil _ (by decide)] at hc
          rw [show ("stderr:\n" : String).data.head? = some 's' from rfl] at hc
          obtain rfl : 's' = c := by simpa using hc
          decide
        · intro c hc
          simp only [String.data_append] at hc
          rw [List.getLast?_append_of_ne_nil _ hsE] at hc
          exact pySnip_getLast_not 1200 eT c hc
      have hdet_ne : cliFailureDetail oT eT ≠ "" := by
        rw [hdetail, string_data_ne]
        simp only [String.data_append]
        exact List.append_ne_nil_of_left_ne_nil (by decide) _
      have hmsg : cliFailureMessage rc oT eT =
          "CLI exited with code " ++ toString rc ++ "\n" ++
            ("stderr:\n" ++ pySnip 1200 eT) := by
        unfold cliFailureMessage
        dsimp only
        rw [if_pos hdet_ne, hdetail]
      refine ⟨?_, fun hc => absurd hc hC⟩
      intro _
      rw [hmsg]
      unfold strContains
      simp only [String.data_append, List.append_assoc]
      repeat first
        | exact chContains_self _
        | exact chContains_self_append _ _
        | apply chContains_append_right
  · refine ⟨fun hc => absurd hc hE, ?_⟩
    intro hC
    have hsO : (pySnip 1200 oT).data ≠ [] :=
      pySnip_data_ne 1200 (by norm_num) oT
        (by rw [hoT]; exact (string_data_ne oT).mp hC.1)
    have hpO : ("stdout:\n" ++ pySnip 1200 oT) ≠ "" := by
      rw [string_data_ne, String.data_append]
      exact List.append_ne_nil_of_left_ne_nil (by decide) _
    have hdetail : cliFailureDetail oT eT =
        "stdout:\n" ++ pySnip 1200 oT := by
      unfold cliFailureDetail
      rw [if_neg hE, if_pos hC]
      dsimp only
      rw [List.nil_append,
        List.filter_cons_of_pos (by simpa using hpO), List.filter_nil]
      simp only [joinSep]
      apply pyStrip_eq_self
      apply stripList_id
      · intro c hc
        simp only [String.data_append, List.append_assoc] at hc
        rw [List.head?_append_of_ne_nil _ (by decide)] at hc
        rw [show ("stdout:\n" : String).data.head? = some 's' from rfl] at hc
        obtain rfl : 's' = c := by simpa using hc
        decide
      · intro c hc
        simp only [String.data_append] at hc
        rw [List.getLast?_append_of_ne_nil _ hsO] at hc
        exact pySnip_getLast_not 1200 oT c hc
    have hdet_ne : cliFailureDetail oT eT ≠ "" := by
      rw [hdetail, string_data_ne]
      simp only [String.data_append]
      exact List.append_ne_nil_of_left_ne_nil (by decide) _
    have hmsg : cliFailureMessage rc oT eT =
        "CLI exited with code " ++ toString rc ++ "\n" ++
          ("stdout:\n" ++ pySnip 1200 oT) := by
      unfold cliFailureMessage
      dsimp only
      rw [if_pos hdet_ne, hdetail]
    rw [hmsg]
    unfold strContains
    simp only [String.data_append, List.append_assoc]
    repeat first
      | exact chContains_self _
      | exact chContains_self_append _ _
      | apply chContains_append_right

/-- C10: after a CLI completion with no auth event detected (no auth
URL in the combined output and the `needs_auth` heuristics negative),
`_process_output` returns success carrying the recovered text whenever
`_clean_output` recovers usable response text from stdout — even on a
non-zero exit code — and when no text is recovered and the exit code is
non-zero, it returns a failure whose error message contains the
truncated (stripped, last-1200-code-points) stderr and stdout. -/
theorem process_output_exit_code
    (cleanOutput : String → String × Option String)
    (extractAuthUrl : String → Option String)
    (autoOpen openUrlOk openTerminalOk : Bool) (configName : String)
    (stdout stderr : String) (returncode : Int) (latency_ms : ℚ)
    (input_text : String)
    (hurl : extractAuthUrl (pyStrip stdout ++ "\n" ++ pyStrip stderr) = none)
    (hna : needsAuthFlag configName (pyStrip stdout) (pyStrip stderr)
        returncode = false) :
    ((cleanOutput (pyStrip stdout)).1 ≠ "" →
      (processOutput cleanOutput extractAuthUrl autoOpen openUrlOk
          openTerminalOk configName stdout stderr returncode latency_ms
          input_text).success = true ∧
      (processOutput cleanOutput extractAuthUrl autoOpen openUrlOk
          openTerminalOk configName stdout stderr returncode latency_ms
          input_text).response = (cleanOutput (pyStrip stdout)).1) ∧
    ((cleanOutput (pyStrip stdout)).1 = "" → returncode ≠ 0 →
      (processOutput cleanOutput extractAuthUrl autoOpen openUrlOk
          openTerminalOk configName stdout stderr returncode latency_ms
          input_text).success = false ∧
      (pyStrip stderr ≠ "" →
        strContains ((processOutput cleanOutput extractAuthUrl autoOpen
            openUrlOk openTerminalOk configName stdout stderr returncode
            latency_ms input_text).error.getD "")
          (pySnip 1200 (pyStrip stderr)) = true) ∧
      (pyStrip stdout ≠ "" ∧ (pyStrip stderr = "" ∨
          pySnip 1200 (pyStrip stdout) ≠ pySnip 1200 (pyStrip stderr)) →
        strContains ((processOutput cleanOutput extractAuthUrl autoOpen
            openUrlOk openTerminalOk configName stdout stderr returncode
            latency_ms input_text).error.getD "")
          (pySnip 1200 (pyStrip stdout)) = true)) := by
  constructor
  · intro hresp
    unfold processOutput
    dsimp only
    rw [hurl]
    dsimp only
    rw [hna]
    rw [if_neg (by simp)]
    rw [if_pos hresp]
    exact ⟨rfl, rfl⟩
  · intro hresp hrc
    unfold processOutput
    dsimp only
    rw [hurl]
    dsimp only
    rw [hna]
    rw [if_neg (by simp)]
    rw [if_neg (by simpa using hresp)]
    rw [if_pos hrc]
    have H := cliFailureMessage_contains returncode (pyStrip stdout)
      (pyStrip stderr) (stripList_idem stdout.data) (stripList_idem stderr.data)
    exact ⟨rfl, fun hse => H.1 hse, fun hco => H.2 hco⟩

/-- Witness for C10: a non-zero exit code with recovered text "all good"
is still a success. -/
theorem process_output_exit_code_witness :
    (processOutput (fun s => (s, none)) (fun _ => none) true true true
        "codex" "all good" "" 2 0 "hi").success = true ∧
    (processOutput (fun s => (s, none)) (fun _ => none) true true true
        "codex" "all good" "" 2 0 "hi").response = pyStrip "all good" :=
  (process_output_exit_code (fun s => (s, none)) (fun _ => none) true true true
    "codex" "all good" "" 2 0 "hi" rfl (by decide)).1 (by decide)

end Hivemind
